import Mathlib

/-!
# Verification of the `wx` NOAA GSOD station tool (`main.py`)

Shallow embedding of the parsing and data-assembly core of `main.py`:
the fixed-width station-history line parser (`parse_history_line`), the
station directory loader (`get_station_histories`), the daily-observation
line parser (`parse_gsod_line`), the station data assembler (`get_wban`)
and the report stage (`process_data`).

Python primitives are modelled explicitly:
* `pySlice s a b` is the string slice `s[a:b]` (clamping, end-exclusive);
* `pyInt` is `int(str)` (strip whitespace, optional sign, decimal digits),
  returning `none` where Python raises `ValueError`;
* `pyFloat` is `float(str)` on finite decimal literals (optional sign,
  optional fraction, optional exponent), returning an exact rational;
  the NOAA numeric fields are finite decimals, so `inf`/`nan` literals
  are out of scope and map to `none`;
* `pyDate y m d` is `datetime.date(y, m, d)`, `none` where Python raises
  `ValueError` (invalid calendar date or year outside 1..9999);
* `dayOfYear` is `date.timetuple()[7]` (the 1-based day of the year);
* `pyFormatD w n` is the `'%0wd' % n` zero-padded conversion.

Python floats are modelled as exact rationals `ℚ`; the float `nan`
produced for the `≥ 9000` sentinel is modelled as `none : Option ℚ`.
Exceptions become `Option`/`Except`; the network and gzip collaborators
become an explicit `fetch : String → String` oracle from URL to the
already-decompressed text body (network or decompression failures
propagate out of the model, as in the source).
-/

/-- Python whitespace recognised by `int()`/`float()` stripping. -/
def pyIsSpace (c : Char) : Bool :=
  c = ' ' || c = '\t' || c = '\n' || c = '\r' || c = '\x0b' || c = '\x0c'

/-- Strip Python whitespace from both ends of a character list. -/
def pyStrip (cs : List Char) : List Char :=
  ((cs.dropWhile pyIsSpace).reverse.dropWhile pyIsSpace).reverse

/-- The string slice `s[a:b]` for `0 ≤ a ≤ b` (Python semantics: clamp to
the string length, empty when `b ≤ a`). -/
def pySlice (s : String) (a b : Nat) : String :=
  ⟨(s.data.drop a).take (b - a)⟩

/-- Value of a list of decimal digit characters. -/
def digitsVal (ds : List Char) : Nat :=
  ds.foldl (fun a c => a * 10 + (c.toNat - 48)) 0

/-- Read an optional leading sign; returns the sign as `1` or `-1` and
the remaining characters. -/
def readSign : List Char → Int × List Char
  | '-' :: rest => (-1, rest)
  | '+' :: rest => (1, rest)
  | cs => (1, cs)

/-- Model of Python `int(str)`: strip whitespace, optional single sign,
then one or more decimal digits and nothing else; `none` models the
`ValueError` raised otherwise (in particular on the empty string). -/
def pyInt (s : String) : Option Int :=
  let cs := pyStrip s.data
  let (sgn, ds) := readSign cs
  if ds ≠ [] ∧ ds.all Char.isDigit then some (sgn * digitsVal ds) else none

/-- Model of Python `float(str)` on finite decimal literals: strip
whitespace, optional sign, digits with an optional fractional part (at
least one digit overall), optional decimal exponent. Returns the exact
rational value, `none` where Python raises `ValueError`. -/
def pyFloat (s : String) : Option ℚ :=
  let cs := pyStrip s.data
  let (sgn, cs) := readSign cs
  let ip := cs.takeWhile Char.isDigit
  let cs := cs.dropWhile Char.isDigit
  let (fp, cs) :=
    match cs with
    | '.' :: rest => (rest.takeWhile Char.isDigit, rest.dropWhile Char.isDigit)
    | _ => ([], cs)
  if ip = [] ∧ fp = [] then none
  else
    let mant : ℚ := (digitsVal ip : ℚ) + (digitsVal fp : ℚ) / (10 : ℚ) ^ fp.length
    match cs with
    | [] => some ((sgn : ℚ) * mant)
    | e :: rest =>
      if e = 'e' ∨ e = 'E' then
        let (esgn, rest) := readSign rest
        let ed := rest.takeWhile Char.isDigit
        let rest := rest.dropWhile Char.isDigit
        if ed = [] ∨ rest ≠ [] then none
        else some ((sgn : ℚ) * mant * (10 : ℚ) ^ (esgn * (digitsVal ed : Int)))
      else none

/-- A calendar date as held by Python's `datetime.date`. -/
structure PyDate where
  year : Int
  month : Int
  day : Int
deriving DecidableEq, Repr

/-- Gregorian leap-year rule used by `datetime.date`. -/
def isLeap (y : Int) : Bool :=
  y % 4 = 0 && (y % 100 ≠ 0 || y % 400 = 0)

/-- Number of days in month `m` of year `y` (for `1 ≤ m ≤ 12`). -/
def daysInMonth (y m : Int) : Int :=
  if m = 2 then (if isLeap y then 29 else 28)
  else if m = 4 ∨ m = 6 ∨ m = 9 ∨ m = 11 then 30
  else 31

/-- Model of `datetime.date(y, m, d)`: `none` models the `ValueError`
raised on an invalid calendar date (Python requires `1 ≤ y ≤ 9999`). -/
def pyDate (y m d : Int) : Option PyDate :=
  if 1 ≤ y ∧ y ≤ 9999 ∧ 1 ≤ m ∧ m ≤ 12 ∧ 1 ≤ d ∧ d ≤ daysInMonth y m then
    some ⟨y, m, d⟩
  else none

/-- Model of `date.timetuple()[7]`: the 1-based day of the year. -/
def dayOfYear (dt : PyDate) : Int :=
  (((List.range (dt.month.toNat - 1)).map
      (fun i => daysInMonth dt.year (i + 1))).sum) + dt.day

/-- Decimal digit characters of a natural number (`fuel`-driven helper). -/
def natDigitsAux : Nat → Nat → List Char
  | 0, _ => []
  | _ + 1, 0 => []
  | fuel + 1, n => natDigitsAux fuel (n / 10) ++ [Char.ofNat (48 + n % 10)]

/-- Decimal representation of a natural number. -/
def natRepr (n : Nat) : String :=
  if n = 0 then "0" else ⟨natDigitsAux (n + 1) n⟩

/-- Model of Python `str(n)` / `'%s' % n` for an integer. -/
def pyStrInt (n : Int) : String :=
  if n < 0 then "-" ++ natRepr n.natAbs else natRepr n.natAbs

/-- Model of Python `'%0wd' % n`: decimal conversion zero-padded to width
`w`, the sign counting toward the width. -/
def pyFormatD (w : Nat) (n : Int) : String :=
  let sign := if n < 0 then "-" else ""
  let ds := natRepr n.natAbs
  sign ++ (⟨List.replicate (w - (sign.length + ds.length)) '0'⟩ : String) ++ ds

/-- Splitting helper: chunks of `cs` between newline characters, the
current chunk accumulated in reverse in `acc`. -/
def splitNLAux : List Char → List Char → List String
  | [], acc => [⟨acc.reverse⟩]
  | c :: rest, acc =>
    if c = '\n' then (⟨acc.reverse⟩ : String) :: splitNLAux rest []
    else splitNLAux rest (c :: acc)

/-- Model of Python `content.split('\n')` (`''.split('\n') == ['']`). -/
def pySplitNL (s : String) : List String :=
  splitNLAux s.data []

/-- Counting helper: `n` consecutive integers starting at `x`. -/
def xrangeAux : Nat → Int → List Int
  | 0, _ => []
  | n + 1, x => x :: xrangeAux n (x + 1)

/-- Model of `xrange(a, b + 1)`: the integers `a, a+1, …, b` in order
(empty when `b < a`). -/
def xrangeIncl (a b : Int) : List Int :=
  xrangeAux (b + 1 - a).toNat a

/-- The `StationHistory` namedtuple of `main.py` (lines 48–49): absent
numeric and date fields are `none`. -/
structure StationHistory where
  usaf : Option Int
  wban : Option Int
  name : String
  country : String
  state : String
  lat : Option ℚ
  lon : Option ℚ
  el : Option ℚ
  begin : Option PyDate
  «end» : Option PyDate
deriving DecidableEq, Repr

/-- `parse_history_line` (`main.py` lines 52–102): strictly positional
field extraction; each `try/except ValueError` block becomes the `Option`
returned by the corresponding primitive, so a failed field is `none` and
never affects the other fields. -/
def parse_history_line (line : String) : StationHistory :=
  let usaf := pyInt (pySlice line 0 6)
  let wban := pyInt (pySlice line 7 12)
  let name := pySlice line 13 43
  let country := pySlice line 43 45
  let state := pySlice line 49 51
  let lat := (pyFloat (pySlice line 58 64)).map (fun x => x / 1000)
  let lon := (pyFloat (pySlice line 65 72)).map (fun x => x / 1000)
  let el := (pyFloat (pySlice line 73 79)).map (fun x => x / 10)
  let begin :=
    match pyInt (pySlice line 83 87), pyInt (pySlice line 87 89),
        pyInt (pySlice line 89 91) with
    | some y, some m, some d => pyDate y m d
    | _, _, _ => none
  let e :=
    match pyInt (pySlice line 92 96), pyInt (pySlice line 96 98),
        pyInt (pySlice line 98 100) with
    | some y, some m, some d => pyDate y m d
    | _, _, _ => none
  { usaf := usaf, wban := wban, name := name, country := country,
    state := state, lat := lat, lon := lon, el := el,
    begin := begin, «end» := e }

/-- `get_station_histories` (`main.py` lines 105–116), over the fetched
text body: split on newlines, skip the 22 header lines, parse every
remaining line. The source wraps `parse_history_line` in a
`try/except Exception` that logs and skips, but every partial primitive
the parser uses is already guarded by an inner `try/except ValueError`,
so the parser is total and the outer handler never fires; the loader is
exactly this map. -/
def get_station_histories (text : String) : List StationHistory :=
  ((pySplitNL text).drop 22).map parse_history_line

/-- The `(date, t_mean, t_max, t_min)` tuple returned by
`parse_gsod_line`; the float `nan` substituted for sentinel temperatures
is `none`. -/
structure GsodRow where
  date : PyDate
  t_mean : Option ℚ
  t_max : Option ℚ
  t_min : Option ℚ
deriving DecidableEq, Repr

/-- `parse_gsod_line` (`main.py` lines 119–132): any `ValueError` from a
float/int conversion or from `datetime.date` escapes to the caller, so
the whole parse is `none` when any step fails. A temperature
`t` is kept when `t < 9000` and replaced by `nan` (`none`) otherwise. -/
def parse_gsod_line (line : String) : Option GsodRow := do
  let tm ← pyFloat (pySlice line 25 30)
  let t_mean := if tm < 9000 then some tm else none
  let tx ← pyFloat (pySlice line 102 108)
  let t_max := if tx < 9000 then some tx else none
  let tn ← pyFloat (pySlice line 110 116)
  let t_min := if tn < 9000 then some tn else none
  let year ← pyInt (pySlice line 14 18)
  let mo ← pyInt (pySlice line 18 20)
  let day ← pyInt (pySlice line 20 22)
  let date ← pyDate year mo day
  return ⟨date, t_mean, t_max, t_min⟩

/-- The date assembled by `parse_gsod_line` from its three positional
integer sub-slices (`main.py` lines 128–131). -/
def gsodDateOf (line : String) : Option PyDate := do
  let year ← pyInt (pySlice line 14 18)
  let mo ← pyInt (pySlice line 18 20)
  let day ← pyInt (pySlice line 20 22)
  pyDate year mo day

/-- Error outcomes of `get_wban`: the explicit station-not-found
`Exception` with its message, the `AttributeError` from `None.year`, and
the `TypeError` from `'%06d' % None`. -/
inductive WxError where
  | stationNotFound (msg : String)
  | attributeError
  | typeError
deriving DecidableEq, Repr

/-- The linear first-match scan of `get_wban` (`main.py` lines 144–147):
`wban == sh.wban` is false when `sh.wban` is `None`. -/
def findWban (wban : Int) : List StationHistory → Option StationHistory
  | [] => none
  | sh :: rest => if sh.wban = some wban then some sh else findWban wban rest

/-- The assembled `pandas.DataFrame` of `get_wban` (lines 168–175): four
parallel lists, the index being `(year, doy)` pairs. -/
structure Table where
  t_mean_list : List (Option ℚ)
  t_max_list : List (Option ℚ)
  t_min_list : List (Option ℚ)
  idx_list : List (Int × Int)
deriving DecidableEq, Repr

/-- The empty accumulator state of `get_wban` (lines 139–142). -/
def Table.empty : Table := ⟨[], [], [], []⟩

/-- The per-line loop of `get_wban` (lines 157–167) over one year's
lines: a parsed line appends its temperatures and `(year, doy)` key; a
failed parse is skipped, the raw line collected in the log exactly when
it is non-empty. Returns the extended accumulator and log. -/
def processLines (year : Int) : List String → Table → List String →
    Table × List String
  | [], acc, logs => (acc, logs)
  | line :: rest, acc, logs =>
    match parse_gsod_line line with
    | some r =>
      processLines year rest
        ⟨acc.t_mean_list ++ [r.t_mean], acc.t_max_list ++ [r.t_max],
          acc.t_min_list ++ [r.t_min],
          acc.idx_list ++ [(year, dayOfYear r.date)]⟩ logs
    | none =>
      processLines year rest acc
        (if line.length > 0 then logs ++ [line] else logs)

/-- The root data URL of the source (`main.py` line 43). -/
def ROOT : String := "http://www1.ncdc.noaa.gov/pub/data/gsod"

/-- The canonical archive filename `'%06d-%05d-%04d.op.gz'`
(`main.py` line 151). -/
def archiveFilename (usaf wban year : Int) : String :=
  pyFormatD 6 usaf ++ "-" ++ pyFormatD 5 wban ++ "-" ++ pyFormatD 4 year
    ++ ".op.gz"

/-- The per-year loop of `get_wban` (lines 150–167): format the archive
filename (a `TypeError` if `usaf` or `wban` is `None`), fetch and
decompress the year's archive via the `fetch` oracle, skip the header
line, and run the per-line loop. -/
def processYears (sh : StationHistory) (fetch : String → String) :
    List Int → Table → List String → Except WxError (Table × List String)
  | [], acc, logs => .ok (acc, logs)
  | year :: rest, acc, logs =>
    match sh.usaf, sh.wban with
    | some u, some w =>
      let filename := archiveFilename u w year
      let url := ROOT ++ "/" ++ pyFormatD 4 year ++ "/" ++ filename
      let content := fetch url
      let (acc, logs) := processLines year ((pySplitNL content).drop 1) acc logs
      processYears sh fetch rest acc logs
    | _, _ => .error .typeError

/-- `get_wban` (`main.py` lines 135–176): linear scan for the first
record matching `wban`, the station-not-found `Exception` naming the
code when none matches, the `AttributeError` when the match lacks a
`begin` or `end` date, then the per-year loop over the inclusive year
range. The second component of the result collects the logged raw lines
(the `logging.warn` side effect). -/
def get_wban (wban : Int) (station_histories : List StationHistory)
    (fetch : String → String) : Except WxError (Table × List String) :=
  match findWban wban station_histories with
  | none =>
    .error (.stationNotFound
      ("Couldn't find wban " ++ pyStrInt wban ++ " in station histories."))
  | some sh =>
    match sh.begin, sh.«end» with
    | some b, some e =>
      processYears sh fetch (xrangeIncl b.year e.year) Table.empty []
    | _, _ => .error .attributeError

/-- `pandas.Series.max()` with the default NaN-skipping: the maximum of
the non-NaN entries, NaN (`none`) when there are none. -/
def seriesMax (xs : List (Option ℚ)) : Option ℚ :=
  match xs.filterMap id with
  | [] => none
  | y :: ys => some (ys.foldl max y)

/-- `pandas.Series.min()` with the default NaN-skipping. -/
def seriesMin (xs : List (Option ℚ)) : Option ℚ :=
  match xs.filterMap id with
  | [] => none
  | y :: ys => some (ys.foldl min y)

/-- The rows of the assembled frame: each index pair with its
`(t_mean, t_max, t_min)` column entries. -/
def rawRows (t : Table) : List ((Int × Int) × (Option ℚ × Option ℚ × Option ℚ)) :=
  t.idx_list.zip (t.t_mean_list.zip (t.t_max_list.zip t.t_min_list))

/-- `data.dropna()` (`main.py` line 188): keep exactly the rows in which
all three temperature columns are non-NaN. -/
def dropna (t : Table) : List ((Int × Int) × (ℚ × ℚ × ℚ)) :=
  (rawRows t).filterMap fun r =>
    match r with
    | (k, (some a, some b, some c)) => some (k, (a, b, c))
    | _ => none

/-- Insert into a `≤`-sorted list of integers. -/
def insertSorted (x : Int) : List Int → List Int
  | [] => [x]
  | y :: ys => if x ≤ y then x :: y :: ys else y :: insertSorted x ys

/-- The group keys of `groupby(level='year')`: the distinct years of the
rows, in ascending order (pandas sorts group keys by default). -/
def groupYears (rows : List ((Int × Int) × (ℚ × ℚ × ℚ))) : List Int :=
  ((rows.map (fun r => r.1.1)).dedup).foldr insertSorted []

/-- Mean of a list of rationals (groups are nonempty by construction). -/
def listMean (xs : List ℚ) : ℚ := xs.sum / (xs.length : ℚ)

/-- Maximum of a nonempty list of rationals (`0` is never reached: the
per-year groups are nonempty by construction). -/
def listMax (xs : List ℚ) : ℚ :=
  match xs with
  | [] => 0
  | y :: ys => ys.foldl max y

/-- Minimum of a nonempty list of rationals. -/
def listMin (xs : List ℚ) : ℚ :=
  match xs with
  | [] => 0
  | y :: ys => ys.foldl min y

/-- `cleaned.groupby(level='year').agg()` for a column-wise aggregate
`agg`: one `(year, t_mean, t_max, t_min)` row per distinct year of the
cleaned rows. -/
def groupByYear (agg : List ℚ → ℚ) (rows : List ((Int × Int) × (ℚ × ℚ × ℚ))) :
    List (Int × ℚ × ℚ × ℚ) :=
  (groupYears rows).map fun y =>
    let g := rows.filter (fun r => r.1.1 = y)
    (y, agg (g.map (fun r => r.2.1)), agg (g.map (fun r => r.2.2.1)),
      agg (g.map (fun r => r.2.2.2)))

/-- Everything `process_data` prints and plots: the four global extrema
and the three per-year aggregate frames. -/
structure Report where
  record_high : Option ℚ
  record_high_mean : Option ℚ
  record_low : Option ℚ
  record_low_mean : Option ℚ
  annual_mean : List (Int × ℚ × ℚ × ℚ)
  annual_max : List (Int × ℚ × ℚ × ℚ)
  annual_min : List (Int × ℚ × ℚ × ℚ)
deriving DecidableEq, Repr

/-- `process_data` (`main.py` lines 179–194): the printed global extrema
(`t_max.max()`, `t_mean.max()`, `t_min.min()`, `t_mean.min()`), then
`dropna`, then the three `groupby(level='year')` aggregates handed to
the plotting collaborator. -/
def process_data (data : Table) : Report :=
  let cleaned := dropna data
  { record_high := seriesMax data.t_max_list
    record_high_mean := seriesMax data.t_mean_list
    record_low := seriesMin data.t_min_list
    record_low_mean := seriesMin data.t_mean_list
    annual_mean := groupByYear listMean cleaned
    annual_max := groupByYear listMax cleaned
    annual_min := groupByYear listMin cleaned }

/-! ## Declarative description of the assembled table (spec §4.4)

Named separately from the accumulator-passing `processLines`/
`processYears` so that the assembler can be proved to refine it. -/

/-- The observation lines of year `y`'s archive body (after the header
line) for a station with `usaf = u`, `wban = w`, as the assembler
fetches them. -/
def yearLines (fetch : String → String) (u w y : Int) : List String :=
  (pySplitNL (fetch (ROOT ++ "/" ++ pyFormatD 4 y ++ "/" ++
    archiveFilename u w y))).drop 1

/-- Declaratively: the observations that parsed without error, one per
successfully parsed line, in year order then line order, each tagged
with its archive year. -/
def assembledRows (fetch : String → String) (u w : Int) (years : List Int) :
    List (Int × GsodRow) :=
  years.flatMap fun y =>
    ((yearLines fetch u w y).filterMap parse_gsod_line).map fun r => (y, r)

/-- Declaratively: the table whose rows are exactly `assembledRows`,
keyed by `(archive year, day-of-year of the parsed date)`. -/
def assembledTable (fetch : String → String) (u w : Int) (years : List Int) :
    Table :=
  { t_mean_list := (assembledRows fetch u w years).map fun p => p.2.t_mean
    t_max_list := (assembledRows fetch u w years).map fun p => p.2.t_max
    t_min_list := (assembledRows fetch u w years).map fun p => p.2.t_min
    idx_list := (assembledRows fetch u w years).map fun p =>
      (p.1, dayOfYear p.2.date) }

/-- Declaratively: the raw lines the assembler logs — the non-empty
lines that failed to parse, in order. -/
def assembledLogs (fetch : String → String) (u w : Int) (years : List Int) :
    List String :=
  years.flatMap fun y =>
    (yearLines fetch u w y).filter fun l =>
      (parse_gsod_line l).isNone && (l.length != 0)

/-! ## Helper lemmas -/

theorem pySlice_of_le (s : String) (a b : Nat) (h : s.length ≤ a) :
    pySlice s a b = "" := by
  have : s.data.length ≤ a := h
  simp [pySlice, List.drop_eq_nil_of_le this]

theorem findWban_wban_eq {w : Int} :
    ∀ {dir : List StationHistory} {sh : StationHistory},
    findWban w dir = some sh → sh.wban = some w := by
  intro dir
  induction dir with
  | nil => intro sh h; simp [findWban] at h
  | cons a rest ih =>
    intro sh h
    by_cases ha : a.wban = some w
    · simp [findWban, ha] at h
      rw [← h]; exact ha
    · simp [findWban, ha] at h
      exact ih h

theorem findWban_none {w : Int} :
    ∀ {dir : List StationHistory},
    (∀ sh ∈ dir, sh.wban ≠ some w) → findWban w dir = none := by
  intro dir
  induction dir with
  | nil => intro _; rfl
  | cons a rest ih =>
    intro h
    have ha : a.wban ≠ some w := h a (List.mem_cons_self a rest)
    simp [findWban, ha]
    exact ih fun sh hsh => h sh (List.mem_cons_of_mem a hsh)

/-- Decomposition of a successful `parse_gsod_line`: the values of all
six numeric sub-slices and the assembled date. -/
theorem parse_gsod_line_eq_some {line : String} {r : GsodRow}
    (h : parse_gsod_line line = some r) :
    ∃ tm tx tn,
      pyFloat (pySlice line 25 30) = some tm ∧
      pyFloat (pySlice line 102 108) = some tx ∧
      pyFloat (pySlice line 110 116) = some tn ∧
      gsodDateOf line = some r.date ∧
      r.t_mean = (if tm < 9000 then some tm else none) ∧
      r.t_max = (if tx < 9000 then some tx else none) ∧
      r.t_min = (if tn < 9000 then some tn else none) := by
  simp only [parse_gsod_line, bind, Option.bind_eq_some, pure,
    Option.some.injEq] at h
  obtain ⟨tm, htm, tx, htx, tn, htn, y, hy, mo, hmo, d, hd, dt, hdt, hr⟩ := h
  refine ⟨tm, tx, tn, htm, htx, htn, ?_, ?_, ?_, ?_⟩
  · simp only [gsodDateOf, bind, Option.bind_eq_some]
    exact ⟨y, hy, mo, hmo, d, hd, by rw [← hr]; exact hdt⟩
  · rw [← hr]
  · rw [← hr]
  · rw [← hr]

/-- Characterization of the per-line loop: it appends to each column
exactly one entry per successfully parsed line (in order), keys every
appended row by the loop's `year` and the parsed date's day-of-year, and
appends to the log exactly the non-empty failing lines. -/
theorem processLines_eq (year : Int) :
    ∀ (lines : List String) (acc : Table) (logs : List String),
    processLines year lines acc logs =
      (⟨acc.t_mean_list ++ (lines.filterMap parse_gsod_line).map
          (fun r => r.t_mean),
        acc.t_max_list ++ (lines.filterMap parse_gsod_line).map
          (fun r => r.t_max),
        acc.t_min_list ++ (lines.filterMap parse_gsod_line).map
          (fun r => r.t_min),
        acc.idx_list ++ (lines.filterMap parse_gsod_line).map
          (fun r => (year, dayOfYear r.date))⟩,
       logs ++ lines.filter
          (fun l => (parse_gsod_line l).isNone && (l.length != 0))) := by
  intro lines
  induction lines with
  | nil => intro acc logs; simp [processLines]
  | cons l rest ih =>
    intro acc logs
    cases h : parse_gsod_line l with
    | some r =>
      simp only [processLines, h]
      rw [ih]
      simp [h, List.filterMap_cons, List.filter_cons]
    | none =>
      simp only [processLines, h]
      by_cases hl : l.length = 0
      · rw [if_neg (by simp [hl]), ih]
        simp [h, List.filterMap_cons, List.filter_cons, hl]
      · rw [if_pos (Nat.pos_of_ne_zero hl), ih]
        simp [h, List.filterMap_cons, List.filter_cons, hl]

/-- Characterization of the per-year loop for a station whose `usaf` and
`wban` are present: it succeeds and extends the accumulators by the
declarative rows and logs of the year list. -/
theorem processYears_eq (sh : StationHistory) (fetch : String → String)
    (u w : Int) (hu : sh.usaf = some u) (hw : sh.wban = some w) :
    ∀ (years : List Int) (acc : Table) (logs : List String),
    processYears sh fetch years acc logs =
      .ok (⟨acc.t_mean_list ++ (assembledTable fetch u w years).t_mean_list,
            acc.t_max_list ++ (assembledTable fetch u w years).t_max_list,
            acc.t_min_list ++ (assembledTable fetch u w years).t_min_list,
            acc.idx_list ++ (assembledTable fetch u w years).idx_list⟩,
           logs ++ assembledLogs fetch u w years) := by
  intro years
  induction years with
  | nil =>
    intro acc logs
    simp [processYears, assembledTable, assembledRows, assembledLogs]
  | cons y rest ih =>
    intro acc logs
    simp only [processYears, hu, hw]
    rw [processLines_eq]
    simp only []
    rw [ih]
    simp only [assembledTable, assembledRows, assembledLogs, yearLines,
      List.flatMap_cons, List.map_append, List.filter_append,
      List.append_assoc, Except.ok.injEq, Prod.mk.injEq, Table.mk.injEq,
      List.map_map]
    simp [List.append_assoc]

theorem xrangeIncl_cons {a b : Int} (h : a ≤ b) :
    xrangeIncl a b = a :: xrangeAux (b - a).toNat (a + 1) := by
  have h2 : (b + 1 - a).toNat = (b - a).toNat + 1 := by omega
  rw [xrangeIncl, h2, xrangeAux]

theorem mem_insertSorted {x a : Int} :
    ∀ {l : List Int}, a ∈ insertSorted x l ↔ a = x ∨ a ∈ l := by
  intro l
  induction l with
  | nil => simp [insertSorted]
  | cons y ys ih =>
    simp only [insertSorted]
    split
    · simp [List.mem_cons]
    · simp only [List.mem_cons, ih]
      tauto

theorem mem_foldr_insertSorted {a : Int} :
    ∀ {l : List Int}, a ∈ l.foldr insertSorted [] ↔ a ∈ l := by
  intro l
  induction l with
  | nil => simp
  | cons y ys ih => simp [List.foldr_cons, mem_insertSorted, ih]

/-! ## Concrete inputs for witnesses

The `Rat` arithmetic operations are `@[irreducible]` in the library; the
concrete evaluations below re-mark them `semireducible` so that `decide`
can evaluate the model on literal inputs. -/

set_option allowUnsafeReducibility true

attribute [local semireducible] Rat.add Rat.mul Rat.inv Rat.sub Rat.div

deriving instance DecidableEq for Except

/-- A run of `n` space characters. -/
def spaces (n : Nat) : String := ⟨List.replicate n ' '⟩

/-- A well-formed observation line: date 1999-01-01, `t_mean` 10.0,
`t_max` 15.0, `t_min` 5.0 at the GSOD byte offsets. -/
def obsLineValid : String :=
  spaces 14 ++ "19990101" ++ spaces 3 ++ " 10.0" ++ spaces 72 ++ "  15.0"
    ++ spaces 2 ++ "   5.0"

/-- An observation line for 1999-01-02 whose `t_max` field holds the
missing-data sentinel `9999.9`. -/
def obsLineSentinel : String :=
  spaces 14 ++ "19990102" ++ spaces 3 ++ " 10.0" ++ spaces 72 ++ "9999.9"
    ++ spaces 2 ++ "   5.0"

/-- An observation line whose embedded date (2000-03-01) lies outside
the archive year it will be processed under. -/
def obsLineForeign : String :=
  spaces 14 ++ "20000301" ++ spaces 3 ++ " 10.0" ++ spaces 72 ++ "  15.0"
    ++ spaces 2 ++ "   5.0"

/-- An observation line with numeric temperature fields but month 13:
the date sub-slices parse as integers yet form no valid calendar date. -/
def obsLineBadDate : String :=
  spaces 14 ++ "19991301" ++ spaces 3 ++ " 10.0" ++ spaces 72 ++ "  15.0"
    ++ spaces 2 ++ "   5.0"

/-- A station-history line whose begin-date sub-slices parse as the
integers 1999, 13, 1 — an invalid month. -/
def histLineBadDate : String := spaces 83 ++ "19991301"

/-- A 100-character line of garbage: every numeric and date field of the
history parser fails on it. -/
def garbageLine : String := ⟨List.replicate 100 'x'⟩

/-- A fully populated directory record active through 1999 only. -/
def stationA : StationHistory :=
  { usaf := some 123456, wban := some 12345, name := "TEST", country := "US",
    state := "VT", lat := none, lon := none, el := none,
    begin := some ⟨1999, 1, 1⟩, «end» := some ⟨1999, 12, 31⟩ }

/-- `stationA` with its begin date absent. -/
def stationNoBegin : StationHistory := { stationA with begin := none }

/-- `stationA` with its `usaf` number absent. -/
def stationNoUsaf : StationHistory := { stationA with usaf := none }

/-- An archive oracle: every year's body has a header line, one valid
line, one non-empty malformed line, one sentinel line and one trailing
empty line. -/
def fetchMixed : String → String := fun _ =>
  "HEADER\n" ++ obsLineValid ++ "\ngarbage\n" ++ obsLineSentinel ++ "\n"

/-- An archive oracle whose body repeats the same valid line twice. -/
def fetchDup : String → String := fun _ =>
  "HEADER\n" ++ obsLineValid ++ "\n" ++ obsLineValid

/-- The table of the spec's report-stage example: a fully populated row
for (2000, 1) and an all-NaN row for (2001, 1). -/
def tblC6 : Table :=
  { t_mean_list := [some 10, none], t_max_list := [some 15, none],
    t_min_list := [some 5, none], idx_list := [(2000, 1), (2001, 1)] }

/-! ## Claim theorems -/

/-- C1 (amended): for every run of `get_wban` whose matched record has
`begin`, `end` and `usaf` present, the assembled table is exactly the
declarative one: one row per observation line that parsed without error,
in year order then line order, keyed by `(archive year, day-of-year)`,
with malformed lines contributing no row and never replaced by defaults;
duplicate `(year, day-of-year)` keys are possible when two parsed lines
yield the same pair, so the keys need not be unique. -/
theorem get_wban_rows_exact (w : Int) (dir : List StationHistory)
    (fetch : String → String) (sh : StationHistory) (b e : PyDate) (u : Int)
    (hfind : findWban w dir = some sh) (hb : sh.begin = some b)
    (he : sh.«end» = some e) (hu : sh.usaf = some u) :
    get_wban w dir fetch =
      .ok (assembledTable fetch u w (xrangeIncl b.year e.year),
           assembledLogs fetch u w (xrangeIncl b.year e.year)) := by
  have hw := findWban_wban_eq hfind
  simp only [get_wban, hfind, hb, he]
  rw [processYears_eq sh fetch u w hu hw]
  simp [Table.empty]

theorem get_wban_rows_exact_witness :
    findWban 12345 [stationA] = some stationA ∧
    get_wban 12345 [stationA] fetchMixed =
      .ok (assembledTable fetchMixed 123456 12345
             (xrangeIncl (1999 : Int) 1999),
           assembledLogs fetchMixed 123456 12345
             (xrangeIncl (1999 : Int) 1999)) :=
  ⟨by decide,
   get_wban_rows_exact 12345 [stationA] fetchMixed stationA
     ⟨1999, 1, 1⟩ ⟨1999, 12, 31⟩ 123456 (by decide) rfl rfl rfl⟩

/-- C1 fails as stated: an archive whose body repeats one valid line
gives a table with two rows sharing the key (1999, 1), so the rows are
not uniquely keyed by `(year, day-of-year)`. -/
theorem table_keys_not_unique :
    get_wban 12345 [stationA] fetchDup =
      .ok (⟨[some 10, some 10], [some 15, some 15], [some 5, some 5],
        [(1999, 1), (1999, 1)]⟩, []) ∧
    ¬ ([((1999 : Int), (1 : Int)), (1999, 1)]).Nodup := by
  exact ⟨by decide, by decide⟩

/-- C2: for every observation line that parses, each decoded temperature
value `v ≥ 9000` is returned as not-a-number (`none`) and each `v < 9000`
is returned unchanged as `some v`; the raw sentinel is never returned. -/
theorem gsod_sentinel_rule :
    ∀ (line : String) (r : GsodRow), parse_gsod_line line = some r →
    (∀ v : ℚ, pyFloat (pySlice line 25 30) = some v →
      r.t_mean = if v < 9000 then some v else none) ∧
    (∀ v : ℚ, pyFloat (pySlice line 102 108) = some v →
      r.t_max = if v < 9000 then some v else none) ∧
    (∀ v : ℚ, pyFloat (pySlice line 110 116) = some v →
      r.t_min = if v < 9000 then some v else none) := by
  intro line r h
  obtain ⟨tm, tx, tn, htm, htx, htn, _, hm, hx, hn⟩ := parse_gsod_line_eq_some h
  refine ⟨?_, ?_, ?_⟩ <;> intro v hv
  · rw [htm] at hv
    cases Option.some.inj hv
    exact hm
  · rw [htx] at hv
    cases Option.some.inj hv
    exact hx
  · rw [htn] at hv
    cases Option.some.inj hv
    exact hn

theorem gsod_sentinel_rule_witness :
    pyFloat (pySlice obsLineSentinel 25 30) = some 10 ∧
    pyFloat (pySlice obsLineSentinel 102 108) = some (99999 / 10) ∧
    parse_gsod_line obsLineSentinel =
      some ⟨⟨1999, 1, 2⟩, some 10, none, some 5⟩ ∧
    (GsodRow.mk ⟨1999, 1, 2⟩ (some 10) none (some 5)).t_mean =
      (if (10 : ℚ) < 9000 then some (10 : ℚ) else none) ∧
    (GsodRow.mk ⟨1999, 1, 2⟩ (some 10) none (some 5)).t_max =
      (if (99999 / 10 : ℚ) < 9000 then some (99999 / 10 : ℚ) else none) :=
  ⟨by decide, by decide, by decide,
   (gsod_sentinel_rule obsLineSentinel
     ⟨⟨1999, 1, 2⟩, some 10, none, some 5⟩ (by decide)).1 10 (by decide),
   (gsod_sentinel_rule obsLineSentinel
     ⟨⟨1999, 1, 2⟩, some 10, none, some 5⟩ (by decide)).2.1 (99999 / 10)
     (by decide)⟩

/-- C3: the history parser handles every field independently: a short
line makes the `begin`/`end`/`lat` fields absent rather than raising; an
integer-parsable but invalid begin year/month/day combination makes the
whole `begin` field absent rather than raising; and each field's value
depends only on that field's own slices, so a failure in one field never
affects the others. -/
theorem history_fields_independent :
    ∀ line : String,
    (line.length ≤ 83 → (parse_history_line line).begin = none) ∧
    (line.length ≤ 92 → (parse_history_line line).«end» = none) ∧
    (line.length ≤ 58 → (parse_history_line line).lat = none) ∧
    (∀ y m d : Int, pyInt (pySlice line 83 87) = some y →
      pyInt (pySlice line 87 89) = some m →
      pyInt (pySlice line 89 91) = some d →
      pyDate y m d = none → (parse_history_line line).begin = none) ∧
    (∀ l2 : String, pySlice line 0 6 = pySlice l2 0 6 →
      (parse_history_line line).usaf = (parse_history_line l2).usaf) ∧
    (∀ l2 : String, pySlice line 92 96 = pySlice l2 92 96 →
      pySlice line 96 98 = pySlice l2 96 98 →
      pySlice line 98 100 = pySlice l2 98 100 →
      (parse_history_line line).«end» = (parse_history_line l2).«end») := by
  intro line
  refine ⟨?_, ?_, ?_, ?_, ?_, ?_⟩
  · intro h
    have h83 := pySlice_of_le line 83 87 h
    simp only [parse_history_line, h83]
    rfl
  · intro h
    have h92 := pySlice_of_le line 92 96 h
    simp only [parse_history_line, h92]
    rfl
  · intro h
    have h58 := pySlice_of_le line 58 64 h
    simp only [parse_history_line, h58]
    rfl
  · intro y m d hy hm hd hdate
    simp only [parse_history_line, hy, hm, hd]
    exact hdate
  · intro l2 h
    simp only [parse_history_line, h]
  · intro l2 h1 h2 h3
    simp only [parse_history_line, h1, h2, h3]

theorem history_fields_independent_witness :
    (("" : String).length ≤ 83 ∧ (parse_history_line "").begin = none) ∧
    (histLineBadDate.length ≤ 92 ∧
      (parse_history_line histLineBadDate).«end» = none) ∧
    (("" : String).length ≤ 58 ∧ (parse_history_line "").lat = none) ∧
    (pyInt (pySlice histLineBadDate 83 87) = some 1999 ∧
     pyInt (pySlice histLineBadDate 87 89) = some 13 ∧
     pyInt (pySlice histLineBadDate 89 91) = some 1 ∧
     pyDate 1999 13 1 = none ∧
     (parse_history_line histLineBadDate).begin = none) ∧
    (parse_history_line "123456A").usaf = (parse_history_line "123456B").usaf ∧
    (parse_history_line histLineBadDate).«end» =
      (parse_history_line (histLineBadDate ++ "x")).«end» :=
  ⟨⟨by decide, (history_fields_independent "").1 (by decide)⟩,
   ⟨by decide, (history_fields_independent histLineBadDate).2.1 (by decide)⟩,
   ⟨by decide, (history_fields_independent "").2.2.1 (by decide)⟩,
   ⟨by decide, by decide, by decide, by decide,
    (history_fields_independent histLineBadDate).2.2.2.1 1999 13 1
      (by decide) (by decide) (by decide) (by decide)⟩,
   (history_fields_independent "123456A").2.2.2.2.1 "123456B" (by decide),
   (history_fields_independent histLineBadDate).2.2.2.2.2
     (histLineBadDate ++ "x") (by decide) (by decide) (by decide)⟩

/-- C4: an observation line whose date sub-slices do not assemble into a
valid calendar date fails to parse as a whole; and the assembler's
per-line loop catches every such failure: the log gains exactly the
non-empty failing lines, while the table still gains one row per line
that parsed, so no failure aborts the year's processing. -/
theorem gsod_invalid_date_fatal_caller_skips :
    (∀ line : String, gsodDateOf line = none → parse_gsod_line line = none) ∧
    (∀ (year : Int) (lines : List String) (acc : Table) (logs : List String),
      (processLines year lines acc logs).2 =
        logs ++ lines.filter
          (fun l => (parse_gsod_line l).isNone && (l.length != 0))) ∧
    (∀ (year : Int) (lines : List String) (acc : Table) (logs : List String),
      (processLines year lines acc logs).1.t_mean_list.length =
        acc.t_mean_list.length + (lines.filterMap parse_gsod_line).length) := by
  refine ⟨?_, ?_, ?_⟩
  · intro line h
    cases hp : parse_gsod_line line with
    | none => rfl
    | some r =>
      obtain ⟨tm, tx, tn, _, _, _, hdate, _⟩ := parse_gsod_line_eq_some hp
      rw [h] at hdate
      exact Option.noConfusion hdate
  · intro year lines acc logs
    rw [processLines_eq]
  · intro year lines acc logs
    rw [processLines_eq]
    simp

theorem gsod_invalid_date_fatal_caller_skips_witness :
    gsodDateOf obsLineBadDate = none ∧
    parse_gsod_line obsLineBadDate = none :=
  ⟨by decide,
   gsod_invalid_date_fatal_caller_skips.1 obsLineBadDate (by decide)⟩

/-- C5: station lookup is the linear first-match scan over the
directory, and when no record's `wban` matches the requested code,
`get_wban` fails with exactly the station-not-found error whose message
names the requested code — no other error is possible in that case. -/
theorem station_lookup_not_found :
    ∀ (w : Int) (dir : List StationHistory) (fetch : String → String),
    (findWban w dir = dir.find? (fun sh => sh.wban == some w)) ∧
    ((∀ sh ∈ dir, sh.wban ≠ some w) →
      get_wban w dir fetch =
        .error (.stationNotFound
          ("Couldn't find wban " ++ pyStrInt w ++ " in station histories."))) := by
  intro w dir fetch
  constructor
  · induction dir with
    | nil => rfl
    | cons a rest ih =>
      by_cases ha : a.wban = some w
      · simp [findWban, List.find?_cons, ha]
      · simp [findWban, List.find?_cons, ha, ih]
  · intro h
    simp only [get_wban, findWban_none h]

theorem station_lookup_not_found_witness :
    (∀ sh ∈ [stationA], sh.wban ≠ some 99999) ∧
    get_wban 99999 [stationA] fetchMixed =
      .error (.stationNotFound
        ("Couldn't find wban " ++ pyStrInt 99999 ++ " in station histories.")) :=
  ⟨by decide,
   (station_lookup_not_found 99999 [stationA] fetchMixed).2 (by decide)⟩

/-- C6: on the spec's example table — a fully populated row for
(2000, 1) and an all-NaN row for (2001, 1) — the report stage's global
extrema ignore the NaN row and the per-year aggregates contain only year
2000; in general every year in the per-year grouping comes from a row
that survived `dropna`. -/
theorem report_stage_aggregates :
    process_data tblC6 =
      { record_high := some 15, record_high_mean := some 10,
        record_low := some 5, record_low_mean := some 10,
        annual_mean := [(2000, 10, 15, 5)],
        annual_max := [(2000, 10, 15, 5)],
        annual_min := [(2000, 10, 15, 5)] } ∧
    (∀ (t : Table) (y : Int), y ∈ groupYears (dropna t) →
      ∃ r, r ∈ dropna t ∧ r.1.1 = y) := by
  refine ⟨by decide, ?_⟩
  intro t y hy
  have h1 : y ∈ ((dropna t).map (fun r => r.1.1)).dedup :=
    mem_foldr_insertSorted.mp hy
  have h2 : y ∈ (dropna t).map (fun r => r.1.1) := List.mem_dedup.mp h1
  obtain ⟨r, hr, hry⟩ := List.mem_map.mp h2
  exact ⟨r, hr, hry⟩

theorem report_stage_aggregates_witness :
    (2000 : Int) ∈ groupYears (dropna tblC6) ∧
    ∃ r, r ∈ dropna tblC6 ∧ r.1.1 = 2000 :=
  ⟨by decide, report_stage_aggregates.2 tblC6 2000 (by decide)⟩

/-- C7: formatting the canonical archive filename pattern
`%06d-%05d-%04d.op.gz` from usaf 123456, wban 12345, year 1999 yields
exactly the string `123456-12345-1999.op.gz`. -/
theorem archive_filename_format :
    archiveFilename 123456 12345 1999 = "123456-12345-1999.op.gz" := by
  decide

/-- C8: the history parser is total by construction (every partial
primitive it uses is inner-guarded), so the loader's catch-and-skip
branch is dead: the loaded directory has exactly one record per line
after the 22 header lines, in input order, each the parse of its line;
a blank line and a line of garbage both yield records whose numeric and
date fields are all absent. -/
theorem history_loader_total :
    (∀ (text : String) (i : Nat),
      (get_station_histories text)[i]? =
        ((pySplitNL text).drop 22)[i]?.map parse_history_line) ∧
    (∀ text : String, (get_station_histories text).length =
      ((pySplitNL text).drop 22).length) ∧
    parse_history_line "" =
      ⟨none, none, "", "", "", none, none, none, none, none⟩ ∧
    (parse_history_line garbageLine).usaf = none ∧
    (parse_history_line garbageLine).wban = none ∧
    (parse_history_line garbageLine).lat = none ∧
    (parse_history_line garbageLine).lon = none ∧
    (parse_history_line garbageLine).el = none ∧
    (parse_history_line garbageLine).begin = none ∧
    (parse_history_line garbageLine).«end» = none := by
  refine ⟨?_, ?_, by decide, by decide, by decide, by decide, by decide,
    by decide, by decide, by decide⟩
  · intro text i
    simp [get_station_histories, List.getElem?_map]
  · intro text
    simp [get_station_histories]

/-- C9: `get_wban` silently requires the matched record to be complete:
an absent `begin` or `end` date makes it fail with the attribute-access
error (which is not the station-not-found error), and — when the year
range is non-empty — an absent `usaf` makes the filename formatting fail
with the type error; no guard checks these fields first. -/
theorem get_wban_missing_fields_errors :
    ∀ (w : Int) (dir : List StationHistory) (fetch : String → String)
      (sh : StationHistory), findWban w dir = some sh →
    ((sh.begin = none ∨ sh.«end» = none) →
      get_wban w dir fetch = .error .attributeError) ∧
    (∀ b e : PyDate, sh.begin = some b → sh.«end» = some e →
      sh.usaf = none → b.year ≤ e.year →
      get_wban w dir fetch = .error .typeError) := by
  intro w dir fetch sh hfind
  constructor
  · intro h
    rcases h with h | h
    · cases he2 : sh.«end» <;> simp [get_wban, hfind, h, he2]
    · cases hb2 : sh.begin <;> simp [get_wban, hfind, h, hb2]
  · intro b e hb he hu hle
    simp only [get_wban, hfind, hb, he]
    rw [xrangeIncl_cons hle]
    simp [processYears, hu]

theorem get_wban_missing_fields_errors_witness :
    findWban 12345 [stationNoBegin] = some stationNoBegin ∧
    get_wban 12345 [stationNoBegin] fetchMixed = .error .attributeError ∧
    findWban 12345 [stationNoUsaf] = some stationNoUsaf ∧
    get_wban 12345 [stationNoUsaf] fetchMixed = .error .typeError :=
  ⟨by decide,
   (get_wban_missing_fields_errors 12345 [stationNoBegin] fetchMixed
     stationNoBegin (by decide)).1 (Or.inl rfl),
   by decide,
   (get_wban_missing_fields_errors 12345 [stationNoUsaf] fetchMixed
     stationNoUsaf (by decide)).2 ⟨1999, 1, 1⟩ ⟨1999, 12, 31⟩ rfl rfl rfl
     (by decide)⟩

/-- C10: every row the per-line loop appends is keyed by the loop's
archive year paired with the day-of-year of the line's parsed date —
never by the year embedded in the line; concretely, a line dated
2000-03-01 processed under archive year 2001 is keyed (2001, 61). -/
theorem rows_keyed_by_archive_year :
    (∀ (year : Int) (lines : List String) (acc : Table) (logs : List String),
      (processLines year lines acc logs).1.idx_list =
        acc.idx_list ++ (lines.filterMap parse_gsod_line).map
          (fun r => (year, dayOfYear r.date))) ∧
    parse_gsod_line obsLineForeign =
      some ⟨⟨2000, 3, 1⟩, some 10, some 15, some 5⟩ ∧
    (processLines 2001 [obsLineForeign] Table.empty []).1.idx_list =
      [(2001, 61)] := by
  refine ⟨?_, by decide, by decide⟩
  intro year lines acc logs
  rw [processLines_eq]
